import Mathlib

set_option linter.unusedVariables false

/-!
Verification of the carrier-automation negotiation-window pricing engine and
the dashboard legend guards.

The pricing engine lives in `app/loads/service.py` (`_apply_pricing`,
`_get_call_pressure`); that file is not part of the checked-out sources, so the
engine is modelled from the specification (`docs/negotiation-window.md` and the
design spec).  The dashboard legends are embedded from
`dashboard/src/components/CarriersTab.tsx` and `NegotiationsTab.tsx`.

Timestamps are modelled as rational numbers measured in hours, and money
amounts as rational numbers of dollars; `round2` rounds to cents.
-/

namespace CarrierAutomation

/-- Error taxonomy of the pricing engine (spec §7). -/
inductive PricingError where
  | InvalidRate
  | DataUnavailable
  deriving DecidableEq, Repr

/-- The negotiation window returned by the pricing engine. -/
structure Window where
  target_carrier_rate : ℚ
  cap_carrier_rate : ℚ
  deriving DecidableEq, Repr

/-- `clamp x lo hi`, as used by the spec's formulas. -/
def clamp (x lo hi : ℚ) : ℚ := max (min x hi) lo

/-- Round to 2 decimal places (cents), rounding half up. -/
def round2 (x : ℚ) : ℚ := (round (x * 100) : ℚ) / 100

/-- Modelled from the spec: hours from `now` until pickup, floored at 0
(spec §4.2 step 1: `hours_to_pickup = max((pickup_datetime - now) in hours, 0)`). -/
def hoursToPickup (pickup now : ℚ) : ℚ := max (pickup - now) 0

/-- Modelled from the spec: urgency from an hours-to-pickup value
(`urgency = clamp(1.0 - hours_to_pickup / 72.0, 0.0, 1.0)`). -/
def urgencyFromHours (h : ℚ) : ℚ := clamp (1 - h / 72) 0 1

/-- Modelled from the spec: pickup urgency; a missing or unparseable
`pickup_datetime` is treated as far future, urgency 0 (spec §4.2 edge cases). -/
def urgency (pickup : Option ℚ) (now : ℚ) : ℚ :=
  match pickup with
  | none => 0
  | some t => urgencyFromHours (hoursToPickup t now)

/-- Modelled from the spec: rejection pressure
(`rejection_pressure = clamp(rate_rejections / 5.0, 0.0, 1.0)`). -/
def rejectionPressure (rate_rejections : ℕ) : ℚ :=
  clamp ((rate_rejections : ℚ) / 5) 0 1

/-- Modelled from the spec: combined pressure
(`pressure = max(urgency, rejection_pressure)`). -/
def pressureOf (pickup : Option ℚ) (now : ℚ) (rate_rejections : ℕ) : ℚ :=
  max (urgency pickup now) (rejectionPressure rate_rejections)

/-- Modelled from the spec: target multiplier `0.95 + pressure * 0.05`. -/
def targetMult (pressure : ℚ) : ℚ := 0.95 + pressure * 0.05

/-- Modelled from the spec: cap multiplier `1.0 + min(pressure * 0.06, 0.05)`. -/
def capMult (pressure : ℚ) : ℚ := 1 + min (pressure * 0.06) 0.05

/-- Modelled from the spec: the pure window computation for a valid rate:
both output rates are rounded to cents only at the final multiplication. -/
def pricingWindow (loadboard_rate : ℚ) (pickup : Option ℚ)
    (rate_rejections : ℕ) (now : ℚ) : Window :=
  let pressure := pressureOf pickup now rate_rejections
  { target_carrier_rate := round2 (loadboard_rate * targetMult pressure)
    cap_carrier_rate := round2 (loadboard_rate * capMult pressure) }

/-- Modelled from the spec: `computeNegotiationWindow` (spec §6), covering
`_apply_pricing` of `app/loads/service.py`, which is not among the sources.
`total_calls` is part of the interface but unused by the current formula.
A non-positive `loadboard_rate` fails with `InvalidRate` (spec §4.2, §7). -/
def computeNegotiationWindow (loadboard_rate : ℚ) (pickup : Option ℚ)
    (rate_rejections total_calls : ℕ) (now : ℚ) : Except PricingError Window :=
  if loadboard_rate ≤ 0 then .error .InvalidRate
  else .ok (pricingWindow loadboard_rate pickup rate_rejections now)

/-- The negotiation-window formula exactly as the specification spells it out,
in one pass: `hours_to_pickup = max((pickup_datetime - now) in hours, 0)`;
`urgency = clamp(1.0 - hours_to_pickup/72.0, 0.0, 1.0)`;
`rejection_pressure = clamp(rate_rejections/5.0, 0.0, 1.0)`;
`pressure = max(urgency, rejection_pressure)`;
`target_mult = 0.95 + pressure*0.05`; `cap_mult = 1.0 + min(pressure*0.06, 0.05)`;
rounding to 2 decimals applied only at the two final multiplications. -/
def negotiationWindowSpecFormula (loadboard_rate pickup now : ℚ)
    (rate_rejections : ℕ) : Window :=
  let hours_to_pickup := max (pickup - now) 0
  let urgency_v := max (min (1 - hours_to_pickup / 72) 1) 0
  let rejection_pressure := max (min ((rate_rejections : ℚ) / 5) 1) 0
  let pressure := max urgency_v rejection_pressure
  let target_mult := 0.95 + pressure * 0.05
  let cap_mult := 1 + min (pressure * 0.06) 0.05
  { target_carrier_rate := round2 (loadboard_rate * target_mult)
    cap_carrier_rate := round2 (loadboard_rate * cap_mult) }

/-! ### PressureAggregator (`_get_call_pressure` / `fetchRejectionPressure`)

Modelled from the spec: the call-history store is a list of call records; the
aggregation filters records with `call_outcome == "rejected"` and
`rejection_reason == "Rate too low"` whose discussed load id is among the
requested ids, then groups by load id, counting matches per group.  The first
component of the result counts the queries issued against the store. -/

/-- One call record, restricted to the fields the aggregation reads. -/
structure CallRecord where
  load_id_discussed : String
  call_outcome : String
  rejection_reason : Option String
  deriving DecidableEq, Repr

/-- Modelled from the spec: the aggregation's match condition for one record
(`call_outcome == "rejected"` and `rejection_reason == "Rate too low"`). -/
def isRateTooLowRejection (r : CallRecord) : Bool :=
  r.call_outcome == "rejected" && r.rejection_reason == some "Rate too low"

/-- Number of "Rate too low" rejections recorded for one load id. -/
def rateTooLowCount (store : List CallRecord) (id : String) : ℕ :=
  (store.filter (fun r => isRateTooLowRejection r && r.load_id_discussed == id)).length

/-- Modelled from the spec: the `$group` stage — one row per distinct load id
occurring in the filtered records, carrying the number of matches. -/
def groupCounts (l : List CallRecord) : List (String × ℕ) :=
  ((l.map (·.load_id_discussed)).dedup).map
    (fun id => (id, (l.filter (fun r => r.load_id_discussed == id)).length))

/-- Modelled from the spec: `fetchRejectionPressure` (`_get_call_pressure` in
`app/loads/service.py`, not among the sources).  An empty batch short-circuits
to an empty map with zero queries; otherwise exactly one aggregation query is
issued.  Result: (number of queries issued, load id → rejection count). -/
def fetchRejectionPressure (loadIds : List String) (store : List CallRecord) :
    ℕ × List (String × ℕ) :=
  if loadIds.isEmpty then (0, [])
  else (1, groupCounts (store.filter
    (fun r => isRateTooLowRejection r && loadIds.contains r.load_id_discussed)))

/-! ### Dashboard legends (`CarriersTab.tsx`, `NegotiationsTab.tsx`) -/

/-- One slice of a legend dataset: a label and its count. -/
structure LegendDatum where
  name : String
  count : ℕ
  deriving DecidableEq, Repr

/-- JavaScript `Math.round`: round half towards positive infinity. -/
def mathRound (q : ℚ) : ℤ := round q

/-- JavaScript `(q).toFixed(0)` read back as an integer: round to nearest,
ties to the larger integer — for the non-negative values rendered here this
agrees with rounding half up. -/
def toFixed0 (q : ℚ) : ℤ := round q

/-- `reduce((sum, e) => sum + e.count, 0)` over a legend dataset. -/
def totalCount (data : List LegendDatum) : ℕ :=
  (data.map (·.count)).foldl (· + ·) 0

/-- The equipment-types legend of `CarriersTab.tsx` (lines 88–98): `none` is
the `<EmptyState/>` branch shown when the dataset is empty; otherwise each
entry renders `total > 0 ? Math.round((e.count / total) * 100) : 0`. -/
def equipmentLegend (data : List LegendDatum) : Option (List ℤ) :=
  if data.length = 0 then none
  else
    let total := totalCount data
    some (data.map (fun e =>
      if 0 < total then mathRound (((e.count : ℚ) / (total : ℚ)) * 100) else 0))

/-- The negotiation-outcomes legend of `NegotiationsTab.tsx` (lines 197–204):
`none` is the `<EmptyState/>` branch shown when `total === 0`; otherwise each
entry renders `total > 0 ? ((entry.count/total)*100).toFixed(0) : 0`. -/
def negotiationOutcomesLegend (data : List LegendDatum) : Option (List ℤ) :=
  let total := totalCount data
  if total = 0 then none
  else
    some (data.map (fun e =>
      if 0 < total then toFixed0 (((e.count : ℚ) / (total : ℚ)) * 100) else 0))

/-! ### Helper lemmas -/

theorem clamp_le {x lo hi : ℚ} (h : lo ≤ hi) : clamp x lo hi ≤ hi :=
  max_le (min_le_right _ _) h

theorem le_clamp (x lo hi : ℚ) : lo ≤ clamp x lo hi := le_max_right _ _

theorem clamp_mono {x y : ℚ} (lo hi : ℚ) (h : x ≤ y) :
    clamp x lo hi ≤ clamp y lo hi :=
  max_le_max (min_le_min h le_rfl) le_rfl

theorem urgency_nonneg (pickup : Option ℚ) (now : ℚ) : 0 ≤ urgency pickup now := by
  cases pickup with
  | none => simp [urgency]
  | some t => exact le_clamp _ _ _

theorem urgency_le_one (pickup : Option ℚ) (now : ℚ) : urgency pickup now ≤ 1 := by
  cases pickup with
  | none => simp [urgency]
  | some t => exact clamp_le (by norm_num)

theorem rejectionPressure_nonneg (r : ℕ) : 0 ≤ rejectionPressure r :=
  le_clamp _ _ _

theorem rejectionPressure_le_one (r : ℕ) : rejectionPressure r ≤ 1 :=
  clamp_le (by norm_num)

theorem pressure_nonneg (pickup : Option ℚ) (now : ℚ) (r : ℕ) :
    0 ≤ pressureOf pickup now r :=
  le_trans (urgency_nonneg pickup now) (le_max_left _ _)

theorem pressure_le_one (pickup : Option ℚ) (now : ℚ) (r : ℕ) :
    pressureOf pickup now r ≤ 1 :=
  max_le (urgency_le_one pickup now) (rejectionPressure_le_one r)

theorem targetMult_ge {p : ℚ} (h : 0 ≤ p) : 0.95 ≤ targetMult p := by
  unfold targetMult; nlinarith

theorem targetMult_le {p : ℚ} (h : p ≤ 1) : targetMult p ≤ 1 := by
  unfold targetMult; nlinarith

theorem capMult_ge {p : ℚ} (h : 0 ≤ p) : 1 ≤ capMult p := by
  unfold capMult
  have hmin : (0 : ℚ) ≤ min (p * 0.06) 0.05 := le_min (by nlinarith) (by norm_num)
  linarith

theorem capMult_le (p : ℚ) : capMult p ≤ 1.05 := by
  unfold capMult
  have hmin := min_le_right (p * 0.06) (0.05 : ℚ)
  linarith

theorem round2_mono {x y : ℚ} (h : x ≤ y) : round2 x ≤ round2 y := by
  unfold round2
  rw [round_eq, round_eq]
  have hf : (⌊x * 100 + 1 / 2⌋ : ℤ) ≤ ⌊y * 100 + 1 / 2⌋ :=
    Int.floor_le_floor (by linarith)
  have hc : ((⌊x * 100 + 1 / 2⌋ : ℤ) : ℚ) ≤ ((⌊y * 100 + 1 / 2⌋ : ℤ) : ℚ) := by
    exact_mod_cast hf
  linarith

theorem round2_le_add (x : ℚ) : round2 x ≤ x + 1 / 200 := by
  have h := abs_sub_round (x * 100)
  rw [abs_le] at h
  unfold round2
  have h1 := h.1
  linarith

theorem sub_le_round2 (x : ℚ) : x - 1 / 200 ≤ round2 x := by
  have h := abs_sub_round (x * 100)
  rw [abs_le] at h
  unfold round2
  have h2 := h.2
  linarith

/-! ### Claim theorems -/

/-- C1: for every input with positive loadboard rate, a present pickup
timestamp, non-negative rejection and call counts and a fixed `now`,
`computeNegotiationWindow` computes exactly the spec's formula chain —
urgency, rejection pressure, combined pressure, target and cap multipliers —
with rounding to 2 decimals applied only at the two final multiplications. -/
theorem c1_exact_formula (L pickup now : ℚ) (r tc : ℕ) (hL : 0 < L) :
    computeNegotiationWindow L (some pickup) r tc now =
      .ok (negotiationWindowSpecFormula L pickup now r) := by
  rw [computeNegotiationWindow, if_neg (not_le.mpr hL)]
  rfl

/-- Witness for C1 at loadboard_rate 2800, pickup 120 h out, 3 rejections. -/
theorem c1_exact_formula_witness :
    (0 : ℚ) < 2800 ∧
    computeNegotiationWindow 2800 (some 120) 3 3 0 =
      .ok (negotiationWindowSpecFormula 2800 120 0 3) :=
  ⟨by norm_num, c1_exact_formula 2800 120 0 3 3 (by norm_num)⟩

/-- C2 counterexample: at loadboard_rate = 2800.11 (a valid, positive rate),
pickup 120 hours out, no rejections, pressure is 0 and the target rate rounds
down to $2660.10, strictly below 0.95 × 2800.11 = 2660.1045 — the claimed
lower bound `0.95 * loadboard_rate ≤ target_carrier_rate` fails. -/
theorem c2_bounds_counterexample :
    computeNegotiationWindow (2800.11) (some 120) 0 0 0 =
      .ok { target_carrier_rate := 2660.10, cap_carrier_rate := 2800.11 } ∧
    ¬ (0.95 * (2800.11 : ℚ) ≤ 2660.10) := by
  constructor
  · rw [computeNegotiationWindow, if_neg (by norm_num)]
    norm_num [pricingWindow, pressureOf, urgency, urgencyFromHours, hoursToPickup,
      rejectionPressure, targetMult, capMult, clamp, round2, round_eq]
  · norm_num

/-- C2 (amended): the window bounds hold up to the final rounding to cents:
`0.95·L − 0.005 ≤ target ≤ L + 0.005` and `L − 0.005 ≤ cap ≤ 1.05·L + 0.005`,
while `target_carrier_rate ≤ cap_carrier_rate` holds exactly. -/
theorem c2_bounds_amended (L : ℚ) (pickup : Option ℚ) (r tc : ℕ) (now : ℚ)
    (w : Window) (hok : computeNegotiationWindow L pickup r tc now = .ok w) :
    0.95 * L - 1 / 200 ≤ w.target_carrier_rate ∧
    w.target_carrier_rate ≤ L + 1 / 200 ∧
    L - 1 / 200 ≤ w.cap_carrier_rate ∧
    w.cap_carrier_rate ≤ 1.05 * L + 1 / 200 ∧
    w.target_carrier_rate ≤ w.cap_carrier_rate := by
  by_cases hL : L ≤ 0
  · rw [computeNegotiationWindow, if_pos hL] at hok
    exact absurd hok (by simp)
  push_neg at hL
  rw [computeNegotiationWindow, if_neg (not_le.mpr hL)] at hok
  injection hok with hw
  subst hw
  have hp0 := pressure_nonneg pickup now r
  have hp1 := pressure_le_one pickup now r
  have htm1 := targetMult_ge hp0
  have htm2 := targetMult_le hp1
  have hcm1 := capMult_ge hp0
  have hcm2 := capMult_le (pressureOf pickup now r)
  have hmul1 : 0.95 * L ≤ L * targetMult (pressureOf pickup now r) := by nlinarith
  have hmul2 : L * targetMult (pressureOf pickup now r) ≤ L := by nlinarith
  have hmul3 : L ≤ L * capMult (pressureOf pickup now r) := by nlinarith
  have hmul4 : L * capMult (pressureOf pickup now r) ≤ 1.05 * L := by nlinarith
  have hmul5 : L * targetMult (pressureOf pickup now r) ≤
      L * capMult (pressureOf pickup now r) := by nlinarith
  refine ⟨?_, ?_, ?_, ?_, ?_⟩
  · have := sub_le_round2 (L * targetMult (pressureOf pickup now r))
    show 0.95 * L - 1 / 200 ≤ round2 (L * targetMult (pressureOf pickup now r))
    linarith
  · have := round2_le_add (L * targetMult (pressureOf pickup now r))
    show round2 (L * targetMult (pressureOf pickup now r)) ≤ L + 1 / 200
    linarith
  · have := sub_le_round2 (L * capMult (pressureOf pickup now r))
    show L - 1 / 200 ≤ round2 (L * capMult (pressureOf pickup now r))
    linarith
  · have := round2_le_add (L * capMult (pressureOf pickup now r))
    show round2 (L * capMult (pressureOf pickup now r)) ≤ 1.05 * L + 1 / 200
    linarith
  · exact round2_mono hmul5

/-- Witness for the amended C2 at loadboard_rate 2800, pickup 120 h out,
3 rejections, where the window is (2744, 2900.80). -/
theorem c2_bounds_amended_witness :
    0.95 * (2800 : ℚ) - 1 / 200 ≤ 2744 ∧ (2744 : ℚ) ≤ 2800 + 1 / 200 ∧
    (2800 : ℚ) - 1 / 200 ≤ 2900.8 ∧ (2900.8 : ℚ) ≤ 1.05 * 2800 + 1 / 200 ∧
    (2744 : ℚ) ≤ 2900.8 :=
  c2_bounds_amended 2800 (some 120) 3 3 0
    { target_carrier_rate := 2744, cap_carrier_rate := 2900.8 }
    (by rw [computeNegotiationWindow, if_neg (by norm_num)]
        norm_num [pricingWindow, pressureOf, urgency, urgencyFromHours,
          hoursToPickup, rejectionPressure, targetMult, capMult, clamp,
          round2, round_eq])

/-- C5: for every loadboard_rate ≤ 0 the engine fails with `InvalidRate` and
returns no pricing window at all. -/
theorem c5_invalid_rate (L : ℚ) (pickup : Option ℚ) (r tc : ℕ) (now : ℚ)
    (hL : L ≤ 0) :
    computeNegotiationWindow L pickup r tc now = .error .InvalidRate := by
  rw [computeNegotiationWindow, if_pos hL]

/-- Witness for C5 at loadboard_rate 0. -/
theorem c5_invalid_rate_witness :
    (0 : ℚ) ≤ 0 ∧
    computeNegotiationWindow 0 (some 24) 2 3 0 = .error .InvalidRate :=
  ⟨le_refl 0, c5_invalid_rate 0 (some 24) 2 3 0 (le_refl 0)⟩

/-- C3: with loadboard rate, pickup time, total calls and `now` fixed, the
engine is monotone in the rejection count: more rejections never decrease the
target or the cap rate. -/
theorem c3_monotone_in_rejections (L : ℚ) (pickup : Option ℚ) (tc : ℕ)
    (now : ℚ) (r1 r2 : ℕ) (w1 w2 : Window) (hr : r1 ≤ r2)
    (h1 : computeNegotiationWindow L pickup r1 tc now = .ok w1)
    (h2 : computeNegotiationWindow L pickup r2 tc now = .ok w2) :
    w1.target_carrier_rate ≤ w2.target_carrier_rate ∧
    w1.cap_carrier_rate ≤ w2.cap_carrier_rate := by
  by_cases hL : L ≤ 0
  · rw [computeNegotiationWindow, if_pos hL] at h1
    exact absurd h1 (by simp)
  push_neg at hL
  rw [computeNegotiationWindow, if_neg (not_le.mpr hL)] at h1
  rw [computeNegotiationWindow, if_neg (not_le.mpr hL)] at h2
  injection h1 with hw1
  injection h2 with hw2
  subst hw1
  subst hw2
  have hrp : rejectionPressure r1 ≤ rejectionPressure r2 := by
    apply clamp_mono
    have : (r1 : ℚ) ≤ (r2 : ℚ) := by exact_mod_cast hr
    linarith
  have hp : pressureOf pickup now r1 ≤ pressureOf pickup now r2 :=
    max_le_max le_rfl hrp
  have htm : targetMult (pressureOf pickup now r1) ≤
      targetMult (pressureOf pickup now r2) := by
    unfold targetMult; nlinarith
  have hcm : capMult (pressureOf pickup now r1) ≤
      capMult (pressureOf pickup now r2) := by
    unfold capMult
    have := min_le_min (mul_le_mul_of_nonneg_right hp (by norm_num : (0:ℚ) ≤ 0.06))
      (le_refl (0.05 : ℚ))
    linarith
  constructor
  · exact round2_mono (mul_le_mul_of_nonneg_left htm hL.le)
  · exact round2_mono (mul_le_mul_of_nonneg_left hcm hL.le)

/-- Witness for C3: 1 ≤ 3 rejections, loadboard_rate 2800, pickup 120 h out:
the window grows from (2688, 2833.60) to (2744, 2900.80). -/
theorem c3_monotone_in_rejections_witness :
    (2688 : ℚ) ≤ 2744 ∧ (2833.6 : ℚ) ≤ 2900.8 :=
  c3_monotone_in_rejections 2800 (some 120) 3 0 1 3
    { target_carrier_rate := 2688, cap_carrier_rate := 2833.6 }
    { target_carrier_rate := 2744, cap_carrier_rate := 2900.8 }
    (by norm_num)
    (by rw [computeNegotiationWindow, if_neg (by norm_num)]
        norm_num [pricingWindow, pressureOf, urgency, urgencyFromHours,
          hoursToPickup, rejectionPressure, targetMult, capMult, clamp,
          round2, round_eq])
    (by rw [computeNegotiationWindow, if_neg (by norm_num)]
        norm_num [pricingWindow, pressureOf, urgency, urgencyFromHours,
          hoursToPickup, rejectionPressure, targetMult, capMult, clamp,
          round2, round_eq])

/-- C4 counterexample: the second documented scenario (loadboard_rate 2800,
pickup in 1 hour, 4 rejections) yields target_carrier_rate $2,798.06 —
more than half a dollar away from the claimed ≈ $2,799.31. -/
theorem c4_examples_counterexample :
    computeNegotiationWindow 2800 (some 1) 4 4 0 =
      .ok { target_carrier_rate := 2798.06, cap_carrier_rate := 2940 } ∧
    (2798.06 : ℚ) + 1 / 2 < 2799.31 := by
  constructor
  · rw [computeNegotiationWindow, if_neg (by norm_num)]
    norm_num [pricingWindow, pressureOf, urgency, urgencyFromHours,
      hoursToPickup, rejectionPressure, targetMult, capMult, clamp,
      round2, round_eq]
  · norm_num

/-- C4 (amended): with loadboard_rate 2800 and `now` fixed: pickup 120 h out
with 3 rejections gives pressure 0.6, target $2,744.00 and cap $2,900.80
(≈ $2,901.00); pickup 1 h out with 4 rejections gives pressure 71/72 ≈ 0.986,
target $2,798.06 (not $2,799.31) and cap $2,940.00. -/
theorem c4_examples_amended :
    computeNegotiationWindow 2800 (some 120) 3 3 0 =
      .ok { target_carrier_rate := 2744, cap_carrier_rate := 2900.8 } ∧
    |(2900.8 : ℚ) - 2901| ≤ 1 / 2 ∧
    pressureOf (some 120) 0 3 = 0.6 ∧
    computeNegotiationWindow 2800 (some 1) 4 4 0 =
      .ok { target_carrier_rate := 2798.06, cap_carrier_rate := 2940 } ∧
    |pressureOf (some 1) 0 4 - 0.986| ≤ 1 / 500 := by
  refine ⟨?_, by rw [abs_le]; constructor <;> norm_num, ?_, ?_, ?_⟩
  · rw [computeNegotiationWindow, if_neg (by norm_num)]
    norm_num [pricingWindow, pressureOf, urgency, urgencyFromHours,
      hoursToPickup, rejectionPressure, targetMult, capMult, clamp,
      round2, round_eq]
  · norm_num [pressureOf, urgency, urgencyFromHours, hoursToPickup,
      rejectionPressure, clamp]
  · rw [computeNegotiationWindow, if_neg (by norm_num)]
    norm_num [pricingWindow, pressureOf, urgency, urgencyFromHours,
      hoursToPickup, rejectionPressure, targetMult, capMult, clamp,
      round2, round_eq]
  · rw [abs_le]
    constructor <;>
      norm_num [pressureOf, urgency, urgencyFromHours, hoursToPickup,
        rejectionPressure, clamp]

/-- C6: a missing or unparseable pickup timestamp does not fail pricing: it
prices with urgency 0 and yields exactly the window of a pickup 72 or more
hours after `now` (all other inputs equal). -/
theorem c6_missing_pickup (L : ℚ) (r tc : ℕ) (now t : ℚ) (hL : 0 < L)
    (ht : now + 72 ≤ t) :
    computeNegotiationWindow L none r tc now = .ok (pricingWindow L none r now) ∧
    urgency none now = 0 ∧
    computeNegotiationWindow L none r tc now =
      computeNegotiationWindow L (some t) r tc now := by
  refine ⟨by rw [computeNegotiationWindow, if_neg (not_le.mpr hL)], rfl, ?_⟩
  rw [computeNegotiationWindow, computeNegotiationWindow,
    if_neg (not_le.mpr hL), if_neg (not_le.mpr hL)]
  have hu : urgencyFromHours (hoursToPickup t now) = 0 := by
    unfold urgencyFromHours hoursToPickup clamp
    have h1 : (0 : ℚ) ≤ t - now := by linarith
    rw [max_eq_left h1]
    have h2 : 1 - (t - now) / 72 ≤ 0 := by
      have h3 : (72 : ℚ) ≤ t - now := by linarith
      have h4 : (1 : ℚ) ≤ (t - now) / 72 := by
        rw [le_div_iff₀ (by norm_num : (0:ℚ) < 72)]; linarith
      linarith
    rw [min_eq_left (by linarith : 1 - (t - now) / 72 ≤ 1), max_eq_right h2]
  simp [pricingWindow, pressureOf, hu, urgency]

/-- Witness for C6 at loadboard_rate 100, pickup exactly 72 h after `now`. -/
theorem c6_missing_pickup_witness :
    computeNegotiationWindow 100 none 1 2 0 = .ok (pricingWindow 100 none 1 0) ∧
    urgency none 0 = 0 ∧
    computeNegotiationWindow 100 none 1 2 0 =
      computeNegotiationWindow 100 (some 72) 1 2 0 :=
  c6_missing_pickup 100 1 2 0 72 (by norm_num) (by norm_num)

/-- Mapping `Prod.fst` over a list of pairs built from a list of keys gives
back the keys. -/
theorem map_fst_key_pairs (ls : List String) (f : String → ℕ) :
    (ls.map (fun id => (id, f id))).map Prod.fst = ls := by
  induction ls with
  | nil => rfl
  | cons a t ih => simp [ih]

/-- The keys of the grouped aggregation are the distinct load ids of the
grouped records. -/
theorem groupCounts_keys (l : List CallRecord) :
    (groupCounts l).map Prod.fst = (l.map (·.load_id_discussed)).dedup := by
  unfold groupCounts
  exact map_fst_key_pairs _ _

/-- C7: the aggregator short-circuits an empty batch — empty map, zero
queries — and on any non-empty batch issues exactly one query and returns a
map whose keys are exactly the requested load ids having at least one
"Rate too low" rejection in the store; ids with zero matches are absent. -/
theorem c7_aggregator :
    (∀ store : List CallRecord, fetchRejectionPressure [] store = (0, [])) ∧
    (∀ (ids : List String) (store : List CallRecord), ids ≠ [] →
      (fetchRejectionPressure ids store).1 = 1 ∧
      ∀ id : String,
        id ∈ (fetchRejectionPressure ids store).2.map Prod.fst ↔
          (id ∈ ids ∧ 0 < rateTooLowCount store id)) := by
  constructor
  · intro store
    rw [fetchRejectionPressure]
    simp
  · intro ids store hids
    obtain ⟨a, t, rfl⟩ : ∃ a t, ids = a :: t := by
      cases ids with
      | nil => exact absurd rfl hids
      | cons a t => exact ⟨a, t, rfl⟩
    have hfetch : fetchRejectionPressure (a :: t) store =
        (1, groupCounts (store.filter
          (fun r => isRateTooLowRejection r &&
            (a :: t).contains r.load_id_discussed))) := by
      rw [fetchRejectionPressure]
      rfl
    rw [hfetch]
    refine ⟨rfl, ?_⟩
    intro id
    rw [groupCounts_keys, List.mem_dedup, rateTooLowCount,
      List.length_pos_iff_exists_mem]
    simp only [List.mem_map, List.mem_filter, Bool.and_eq_true, beq_iff_eq]
    constructor
    · rintro ⟨r, ⟨hr, hrtl, hcont⟩, rfl⟩
      exact ⟨List.elem_iff.mp hcont, r, ⟨hr, hrtl, rfl⟩⟩
    · rintro ⟨hid, r, ⟨hr, hrtl, hload⟩⟩
      exact ⟨r, ⟨hr, hrtl, List.elem_iff.mpr (hload ▸ hid)⟩, hload⟩

/-- Witness for C7: a store where only load "A" has "Rate too low" rejections;
batch ["A", "B"] issues one query and its map has key "A" but not "B". -/
theorem c7_aggregator_witness :
    fetchRejectionPressure []
      [⟨"A", "rejected", some "Rate too low"⟩] = (0, []) ∧
    (fetchRejectionPressure ["A", "B"]
      [⟨"A", "rejected", some "Rate too low"⟩,
       ⟨"A", "rejected", some "Rate too low"⟩,
       ⟨"B", "accepted", none⟩]).1 = 1 ∧
    ("A" ∈ (fetchRejectionPressure ["A", "B"]
      [⟨"A", "rejected", some "Rate too low"⟩,
       ⟨"A", "rejected", some "Rate too low"⟩,
       ⟨"B", "accepted", none⟩]).2.map Prod.fst ↔
      ("A" ∈ ["A", "B"] ∧ 0 < rateTooLowCount
        [⟨"A", "rejected", some "Rate too low"⟩,
         ⟨"A", "rejected", some "Rate too low"⟩,
         ⟨"B", "accepted", none⟩] "A")) :=
  ⟨c7_aggregator.1 _,
   (c7_aggregator.2 ["A", "B"] _ (by simp)).1,
   (c7_aggregator.2 ["A", "B"] _ (by simp)).2 "A"⟩

/-- C8: both pressure signals saturate — any rejection count at or above 5
gives the same rejection pressure (1.0) and the same window as exactly 5;
hours-to-pickup ≤ 0 gives urgency exactly 1.0, and ≥ 72 gives exactly 0.0. -/
theorem c8_saturation :
    (∀ r : ℕ, 5 ≤ r → rejectionPressure r = 1) ∧
    (∀ (L : ℚ) (pickup : Option ℚ) (tc : ℕ) (now : ℚ) (r : ℕ), 5 ≤ r →
      computeNegotiationWindow L pickup r tc now =
        computeNegotiationWindow L pickup 5 tc now) ∧
    (∀ h : ℚ, h ≤ 0 → urgencyFromHours h = 1) ∧
    (∀ h : ℚ, 72 ≤ h → urgencyFromHours h = 0) := by
  have hrp : ∀ r : ℕ, 5 ≤ r → rejectionPressure r = 1 := by
    intro r hr
    unfold rejectionPressure clamp
    have h5 : (5 : ℚ) ≤ (r : ℚ) := by exact_mod_cast hr
    have h1 : (1 : ℚ) ≤ (r : ℚ) / 5 := by
      rw [le_div_iff₀ (by norm_num : (0:ℚ) < 5)]; linarith
    rw [min_eq_right h1, max_eq_left (by norm_num : (0:ℚ) ≤ 1)]
  refine ⟨hrp, ?_, ?_, ?_⟩
  · intro L pickup tc now r hr
    unfold computeNegotiationWindow pricingWindow pressureOf
    rw [hrp r hr, hrp 5 (le_refl 5)]
  · intro h hh
    unfold urgencyFromHours clamp
    have h1 : (1 : ℚ) ≤ 1 - h / 72 := by
      have : h / 72 ≤ 0 := div_nonpos_of_nonpos_of_nonneg hh (by norm_num)
      linarith
    rw [min_eq_right h1, max_eq_left (by norm_num : (0:ℚ) ≤ 1)]
  · intro h hh
    unfold urgencyFromHours clamp
    have h0 : 1 - h / 72 ≤ 0 := by
      have : (1 : ℚ) ≤ h / 72 := by
        rw [le_div_iff₀ (by norm_num : (0:ℚ) < 72)]; linarith
      linarith
    rw [min_eq_left (by linarith : 1 - h / 72 ≤ 1), max_eq_right h0]

/-- Witness for C8: 7 rejections behave like 5; urgency at −3 h is 1, at
100 h is 0. -/
theorem c8_saturation_witness :
    rejectionPressure 7 = 1 ∧
    computeNegotiationWindow 100 (some 10) 7 2 0 =
      computeNegotiationWindow 100 (some 10) 5 2 0 ∧
    urgencyFromHours (-3) = 1 ∧
    urgencyFromHours 100 = 0 :=
  ⟨c8_saturation.1 7 (by norm_num),
   c8_saturation.2.1 100 (some 10) 2 0 7 (by norm_num),
   c8_saturation.2.2.1 (-3) (by norm_num),
   c8_saturation.2.2.2 100 (by norm_num)⟩

/-- C9: the cap multiplier saturates at exactly 1.05 for every pressure at or
above 5/6, so the cap rate is constant there for a fixed loadboard rate, while
the target multiplier is still strictly increasing in pressure. -/
theorem c9_cap_saturates_early :
    (∀ p : ℚ, 5 / 6 ≤ p → capMult p = 1.05) ∧
    (∀ p1 p2 : ℚ, p1 < p2 → targetMult p1 < targetMult p2) ∧
    (∀ (L p1 p2 : ℚ), 5 / 6 ≤ p1 → 5 / 6 ≤ p2 →
      round2 (L * capMult p1) = round2 (L * capMult p2)) := by
  have hcap : ∀ p : ℚ, 5 / 6 ≤ p → capMult p = 1.05 := by
    intro p hp
    unfold capMult
    rw [min_eq_right (by nlinarith : (0.05 : ℚ) ≤ p * 0.06)]
    norm_num
  refine ⟨hcap, ?_, ?_⟩
  · intro p1 p2 h
    unfold targetMult
    nlinarith
  · intro L p1 p2 h1 h2
    rw [hcap p1 h1, hcap p2 h2]

/-- Witness for C9: pressures 0.9 and 1 both give cap multiplier 1.05 and the
same cap rate at loadboard_rate 2800, while the target multiplier grows. -/
theorem c9_cap_saturates_early_witness :
    capMult 0.9 = 1.05 ∧
    targetMult 0.5 < targetMult 0.9 ∧
    round2 (2800 * capMult 0.9) = round2 (2800 * capMult 1) :=
  ⟨c9_cap_saturates_early.1 0.9 (by norm_num),
   c9_cap_saturates_early.2.1 0.5 0.9 (by norm_num),
   c9_cap_saturates_early.2.2 2800 0.9 1 (by norm_num) (by norm_num)⟩

/-- C10: both percentage legends guard their division by the total: on a
non-empty dataset whose counts sum to 0 the equipment legend renders the
literal 0 for every slice, and the outcomes legend renders its empty state;
on a positive total each rendered percentage is the slice's count divided by
the total, times 100, rounded — so no division by zero is ever evaluated. -/
theorem c10_legend_guards :
    (∀ data : List LegendDatum, data ≠ [] → totalCount data = 0 →
      equipmentLegend data = some (data.map (fun _ => 0))) ∧
    (∀ data : List LegendDatum, 0 < totalCount data →
      equipmentLegend data = some (data.map (fun e =>
        mathRound (((e.count : ℚ) / (totalCount data : ℚ)) * 100)))) ∧
    (∀ data : List LegendDatum, totalCount data = 0 →
      negotiationOutcomesLegend data = none) ∧
    (∀ data : List LegendDatum, 0 < totalCount data →
      negotiationOutcomesLegend data = some (data.map (fun e =>
        toFixed0 (((e.count : ℚ) / (totalCount data : ℚ)) * 100)))) := by
  refine ⟨?_, ?_, ?_, ?_⟩
  · intro data hne htot
    rw [equipmentLegend, if_neg (by simpa [List.length_eq_zero] using hne)]
    simp [htot]
  · intro data htot
    have hne : data.length ≠ 0 := by
      intro hlen
      rw [List.length_eq_zero] at hlen
      subst hlen
      simp [totalCount] at htot
    rw [equipmentLegend, if_neg hne]
    simp [htot]
  · intro data htot
    rw [negotiationOutcomesLegend]
    simp [htot]
  · intro data htot
    rw [negotiationOutcomesLegend]
    simp only [Nat.pos_iff_ne_zero] at htot
    simp [htot, Nat.pos_of_ne_zero htot]

/-- Witness for C10 on concrete datasets: an all-zero equipment dataset
renders literal 0%, a zero outcomes dataset renders the empty state, and
positive datasets render rounded percentages (25/75 and 67/33). -/
theorem c10_legend_guards_witness :
    equipmentLegend [⟨"Flatbed", 0⟩, ⟨"Reefer", 0⟩] = some [0, 0] ∧
    negotiationOutcomesLegend [⟨"Accepted", 0⟩] = none ∧
    equipmentLegend [⟨"Van", 1⟩, ⟨"Reefer", 3⟩] = some [25, 75] ∧
    negotiationOutcomesLegend [⟨"Accepted", 2⟩, ⟨"No deal", 1⟩] =
      some [67, 33] :=
  ⟨(c10_legend_guards.1 _ (by simp) (by rfl)).trans rfl,
   c10_legend_guards.2.2.1 _ (by rfl),
   (c10_legend_guards.2.1 _ (by norm_num [totalCount])).trans
     (by norm_num [totalCount, mathRound, round_eq]),
   (c10_legend_guards.2.2.2 _ (by norm_num [totalCount])).trans
     (by norm_num [totalCount, toFixed0, round_eq])⟩

end CarrierAutomation
